import Mathlib

/-!
Verification of Delete.py (Automated-ChatGPT-Chats-Deletion).

The program drives a browser to delete chat conversations. We model the
browser/UI boundary as explicit fault-injection environments: every UI
interaction the script performs (clicks, waits, element lookups, polls)
is given an outcome by the environment, and the script's control flow
over those outcomes is translated step by step from Delete.py.

Python exceptions are modelled with an explicit Except layer: a step
that raises produces an error value, and a try/except block in the
source becomes a match on that layer, so the statement that a function
never propagates an exception is a provable fact about the embedding,
not a triviality of Lean totality.
-/

/-- Python split for a one-character separator, on the character list of
the string: mirrors the Python behaviour, including the empty pieces
around leading, trailing and repeated separators. -/
def splitOnChar (sep : Char) : List Char → List (List Char)
  | [] => [[]]
  | c :: cs =>
    let r := splitOnChar sep cs
    if c = sep then [] :: r
    else
      match r with
      | [] => [[c]]
      | h :: t => (c :: h) :: t

/-- Whether the pattern occurs at the head of the list. -/
def startsWith : List Char → List Char → Bool
  | [], _ => true
  | _ :: _, [] => false
  | p :: ps, c :: cs => p = c && startsWith ps cs

/-- Python substring membership test on character lists. -/
def hasInfix (pat : List Char) : List Char → Bool
  | [] => startsWith pat []
  | c :: cs => startsWith pat (c :: cs) || hasInfix pat (c :: cs).tail

/-- The chat identifier of a link, Delete.py line 105: the last
slash-separated component of the href. -/
def chatIdOf (href : String) : String :=
  String.mk ((splitOnChar '/' href.data).getLastD [])

/-- A Python exception as far as Delete.py inspects it: whether it is an
ElementClickInterceptedException, and whether its message contains the
dark-mode overlay marker substring tested on lines 219 and 319 of the
source (because another element with the dark html class intercepted
the click). -/
structure Exc where
  intercepted : Bool
  darkMarker : Bool
deriving DecidableEq, Repr

/-- The result of the Python function at the boundary of its outermost
try block: either a returned boolean or an uncaught exception
propagating to the caller. -/
inductive PyOutcome where
  | ret (b : Bool)
  | raise (e : Exc)
deriving DecidableEq, Repr

/-- The mutable fields of ChatGPTDeleter used by the deletion logic:
deleted_chat_ids, current_error_chat_id and dark_mode_error_count
(Delete.py lines 59, 68, 69). -/
structure DeleterState where
  deleted_chat_ids : Finset String
  current_error_chat_id : Option String
  dark_mode_error_count : Nat
deriving DecidableEq

/-- The deleter state as initialised in the constructor before loading
the log: empty set, no tracked chat, zero error count. -/
def initState : DeleterState :=
  { deleted_chat_ids := ∅, current_error_chat_id := none, dark_mode_error_count := 0 }

/-- The content of the persisted log file as the load can see it:
absent, present but unreadable as a JSON string array (the parse or the
set construction raises), or a JSON array of strings. -/
inductive FileContent where
  | missing
  | invalid
  | valid (ids : List String)
deriving DecidableEq, Repr

/-- The body of the try block of the log load (Delete.py lines 77-79):
parsing the file and building the set either raises or yields the set
of identifiers in the array. -/
def loadBody : FileContent → Except Unit (Finset String)
  | .missing => .ok ∅
  | .invalid => .error ()
  | .valid l => .ok l.toFinset

/-- Model of the log load, Delete.py lines 73-81: if the file does not
exist the current set is left as it is; otherwise the body runs under
try, and on any exception the set is left unchanged with only a warning
logged. -/
def load_deleted_log (fc : FileContent) (current : Finset String) : Finset String :=
  if fc = FileContent.missing then current
  else
    match loadBody fc with
    | .ok s => s
    | .error _ => current

/-- Model of the log save, Delete.py lines 83-89: the content written
to the file is the list of the elements of the set, each exactly once
(Python iteration order is arbitrary; we fix the sorted order, which
represents the same JSON array up to permutation). -/
def save_deleted_log (s : Finset String) : List String :=
  s.sort (· ≤ ·)

/-- A sidebar anchor element as the scan inspects it: reading the href
attribute either raises (attrFault) or returns an optional string
(Python None modelled as none). -/
structure PageElement where
  href : Option String
  attrFault : Bool
deriving DecidableEq, Repr

/-- The environment of one scan: whether the initial wait for a
conversation link times out (or any other error escapes the outer try,
line 116), and the elements the page returns. -/
structure GetChatsEnv where
  timeout : Bool
  elements : List PageElement
deriving DecidableEq, Repr

/-- A pending conversation as returned by the scan; we keep the
identifier of the dict the source builds on lines 107-110. -/
structure Chat where
  id : String
deriving DecidableEq, Repr

/-- The element loop of the scan, Delete.py lines 101-112: for each
element, read the href under a per-element try whose except clause just
continues; if the href is truthy and contains the conversation path
marker, take its last slash-component as the chat id and keep it unless
it is already in the deleted set. -/
def extractChats (deleted : Finset String) : List PageElement → List Chat
  | [] => []
  | e :: rest =>
    let tail := extractChats deleted rest
    if e.attrFault then tail
    else
      match e.href with
      | none => tail
      | some h =>
        if h ≠ "" ∧ hasInfix "/c/".data h.data then
          let cid := chatIdOf h
          if cid ∉ deleted then { id := cid } :: tail else tail
        else tail

/-- Model of the scan, Delete.py lines 91-118: on a wait timeout (or
any other exception reaching the handler on line 116) return the empty
list, otherwise run the element loop. -/
def get_chats (env : GetChatsEnv) (deleted : Finset String) : List Chat :=
  if env.timeout then [] else extractChats deleted env.elements

/-- Outcome of one confirmation-button try (one selector on one
attempt, Delete.py lines 277-289): the click succeeded, the selector
raised NoSuchElementException, or the find or click raised some other
exception, which is logged and the loop continues. -/
inductive ConfirmRes where
  | clicked
  | notFound
  | err (e : Exc)
deriving DecidableEq, Repr

/-- Outcome of one verification poll (Delete.py lines 305-312): the
link is still found, NoSuchElementException (the chat is gone), or
another exception, which propagates out of the poll loop. -/
inductive PollRes where
  | present
  | absent
  | fault (e : Exc)
deriving DecidableEq, Repr

/-- Fault-injection environment for one deletion attempt, one field per
UI interaction in source order.  A none or true field means the step
succeeds; a some value means the step raises that exception.  The three
page refreshes the source performs are fallible too: refreshInner is
the refresh of line 224 (inside the intercepted-click handler),
refreshConfirm the one of line 296 (after the confirmation attempts all
fail), refreshOuter the one of line 324 (inside the outer except
handler, where a failure propagates out of the function). -/
structure DeleteEnv where
  overlayScript : Option Exc
  chatLinkClick : Option Exc
  containerHover : Option Exc
  menuWait : Option Exc
  menuClick : Option Exc
  refreshInner : Option Exc
  menuDeleteFound : Bool
  menuDeleteClick : Option Exc
  dialogSel : Fin 3 → Bool
  confirmTry : Fin 5 → Fin 4 → ConfirmRes
  refreshConfirm : Option Exc
  poll : Fin 3 → PollRes
  refreshOuter : Option Exc

/-- The dialog-selector loop, Delete.py lines 247-257: scan the three
dialog selectors in order, stopping at the first that is found. -/
def dialogLoop (d : Fin 3 → Bool) : List (Fin 3) → Bool
  | [] => false
  | i :: rest => if d i then true else dialogLoop d rest

/-- The inner selector loop of one confirmation attempt, lines 276-289:
try each selector in order; on a successful click stop, otherwise
continue.  Also returns the list of selectors tried, in order. -/
def confirmSelectors (t : Fin 4 → ConfirmRes) : List (Fin 4) → Bool × List (Fin 4)
  | [] => (false, [])
  | s :: rest =>
    match t s with
    | .clicked => (true, [s])
    | _ =>
      let r := confirmSelectors t rest
      (r.1, s :: r.2)

/-- The attempt loop of the confirmation click, lines 272-292: up to
five attempts, each running the full selector loop, stopping as soon as
one attempt succeeds.  Returns success and the trace of tried
attempt-selector pairs in order. -/
def confirmAttempts (t : Fin 5 → Fin 4 → ConfirmRes) : List (Fin 5) → Bool × List (Fin 5 × Fin 4)
  | [] => (false, [])
  | a :: rest =>
    let r := confirmSelectors (t a) [0, 1, 2, 3]
    if r.1 then (true, r.2.map fun s => (a, s))
    else
      let r2 := confirmAttempts t rest
      (r2.1, (r.2.map fun s => (a, s)) ++ r2.2)

/-- The verification loop, lines 304-315: up to three polls; a poll
that still finds the link consumes a retry, NoSuchElementException
returns success, any other exception propagates; when the retries are
exhausted the function returns failure. -/
def pollLoop (p : Fin 3 → PollRes) : List (Fin 3) → Except Exc Bool
  | [] => .ok false
  | k :: rest =>
    match p k with
    | .present => pollLoop p rest
    | .absent => .ok true
    | .fault e => .error e

/-- What comes out of the try block of the deletion (before the outer
except on line 317): a returned boolean or a propagating exception,
together with the state at that moment, the number of page refreshes
made, and the confirmation-click trace. -/
structure BodyOut where
  out : Except Exc Bool
  state : DeleterState
  reloads : Nat
  confirmTrace : List (Fin 5 × Fin 4)

/-- The try block of the deletion, Delete.py lines 183-315, step by
step in source order: overlay-removal script; per-chat error tracking
(lines 191-193); chat link click; container hover; wait for the
three-dot button; the ActionChains click on it with its dedicated
handler for intercepted clicks (lines 218-230, whose refresh on line
224 may itself raise: that exception leaves the handler clause and is
caught by the outer try, with the counter already incremented and no
reload done); the menu Delete lookup (which catches its own errors and
yields nothing); the menu Delete click; the dialog-selector loop; the
confirmation attempt loop with the refresh-and-reset on total failure
(lines 294-299, where a refresh fault on line 296 likewise escapes to
the outer handler before the counter reset of line 298); the
verification poll loop. -/
def deleteBody (env : DeleteEnv) (chat : Chat) (s : DeleterState) : BodyOut :=
  match env.overlayScript with
  | some e => ⟨.error e, s, 0, []⟩
  | none =>
    let s1 : DeleterState :=
      if s.current_error_chat_id ≠ some chat.id then
        { s with current_error_chat_id := some chat.id, dark_mode_error_count := 0 }
      else s
    match env.chatLinkClick with
    | some e => ⟨.error e, s1, 0, []⟩
    | none =>
    match env.containerHover with
    | some e => ⟨.error e, s1, 0, []⟩
    | none =>
    match env.menuWait with
    | some e => ⟨.error e, s1, 0, []⟩
    | none =>
    match env.menuClick with
    | some e =>
      if e.intercepted then
        if e.darkMarker then
          if s1.dark_mode_error_count + 1 ≥ 5 then
            match env.refreshInner with
            | some f =>
              ⟨.error f, { s1 with dark_mode_error_count := s1.dark_mode_error_count + 1 }, 0, []⟩
            | none => ⟨.ok false, { s1 with dark_mode_error_count := 0 }, 1, []⟩
          else
            ⟨.ok false, { s1 with dark_mode_error_count := s1.dark_mode_error_count + 1 }, 0, []⟩
        else
          ⟨.ok false, s1, 0, []⟩
      else ⟨.error e, s1, 0, []⟩
    | none =>
    if env.menuDeleteFound then
      match env.menuDeleteClick with
      | some e => ⟨.error e, s1, 0, []⟩
      | none =>
        if dialogLoop env.dialogSel [0, 1, 2] then
          let c := confirmAttempts env.confirmTry [0, 1, 2, 3, 4]
          if c.1 then
            match pollLoop env.poll [0, 1, 2] with
            | .ok b => ⟨.ok b, s1, 0, c.2⟩
            | .error e => ⟨.error e, s1, 0, c.2⟩
          else
            match env.refreshConfirm with
            | some f => ⟨.error f, s1, 0, c.2⟩
            | none => ⟨.ok false, { s1 with dark_mode_error_count := 0 }, 1, c.2⟩
        else ⟨.ok false, s1, 0, []⟩
    else ⟨.ok false, s1, 0, []⟩

/-- The full result of one deletion attempt: the outcome (a returned
boolean; never a propagating exception once the outer handler has run),
the resulting state, the refresh count and the confirmation trace. -/
structure DeleteResult where
  outcome : PyOutcome
  state : DeleterState
  reloads : Nat
  confirmTrace : List (Fin 5 × Fin 4)
deriving DecidableEq

/-- Model of the per-chat deletion, Delete.py lines 175-330: the try
body wrapped in the outer except handler (lines 317-330), which returns
failure, incrementing the dark-mode counter when the exception message
contains the marker and refreshing plus resetting once the counter
reaches 5.  The refresh of line 324 runs inside the except clause, so
when it raises, nothing catches it within the function: the result is a
propagating exception, with the counter incremented (line 320) but not
reset (line 326 is never reached) and no reload performed. -/
def delete_chat (env : DeleteEnv) (chat : Chat) (s : DeleterState) : DeleteResult :=
  let b := deleteBody env chat s
  match b.out with
  | .ok v => ⟨.ret v, b.state, b.reloads, b.confirmTrace⟩
  | .error e =>
    if e.darkMarker then
      if b.state.dark_mode_error_count + 1 ≥ 5 then
        match env.refreshOuter with
        | some f =>
          ⟨.raise f, { b.state with dark_mode_error_count := b.state.dark_mode_error_count + 1 },
            b.reloads, b.confirmTrace⟩
        | none =>
          ⟨.ret false, { b.state with dark_mode_error_count := 0 }, b.reloads + 1, b.confirmTrace⟩
      else
        ⟨.ret false, { b.state with dark_mode_error_count := b.state.dark_mode_error_count + 1 },
          b.reloads, b.confirmTrace⟩
    else ⟨.ret false, b.state, b.reloads, b.confirmTrace⟩

/-- Iterated deletion attempts on the same chat with the same fault
environment: the state after n calls and the total number of page
reloads performed across them. -/
def deleteRun (env : DeleteEnv) (chat : Chat) : Nat → DeleterState → DeleterState × Nat
  | 0, s => (s, 0)
  | n + 1, s =>
    let r := deleteRun env chat n s
    let d := delete_chat env chat r.1
    (d.state, r.2 + d.reloads)

/-- The deleter state together with the persisted file, for the main
loop model. -/
structure RunState where
  ds : DeleterState
  file : FileContent
deriving DecidableEq

/-- The per-batch loop of run, Delete.py lines 379-385: for each chat
(paired with the fault environment of its deletion attempt), attempt
the deletion; on success add the id to the deleted set and write the
set to the log file, on failure only log. -/
def runBatch : List (Chat × DeleteEnv) → RunState → RunState
  | [], rs => rs
  | (c, env) :: rest, rs =>
    let r := delete_chat env c rs.ds
    if r.outcome = PyOutcome.ret true then
      let ds' := { r.state with deleted_chat_ids := insert c.id r.state.deleted_chat_ids }
      runBatch rest ⟨ds', FileContent.valid (save_deleted_log ds'.deleted_chat_ids)⟩
    else
      runBatch rest ⟨r.state, rs.file⟩

/-- Result of the main loop: it either stopped because a scan found no
pending chats, or the modelling fuel ran out. -/
inductive LoopResult where
  | finished (rs : RunState)
  | outOfFuel (rs : RunState)
deriving DecidableEq

/-- The main loop of run, Delete.py lines 373-387, with explicit fuel:
scan the sidebar; if the pending list is empty, stop; otherwise process
the batch and loop.  The first argument gives the page content seen by
each iteration, the second the fault environment of each iteration's
deletion attempt on each chat. -/
def runLoop (scan : Nat → GetChatsEnv) (denv : Nat → Chat → DeleteEnv) :
    Nat → Nat → RunState → LoopResult
  | 0, _, rs => .outOfFuel rs
  | fuel + 1, iter, rs =>
    let chats := get_chats (scan iter) rs.ds.deleted_chat_ids
    if chats = [] then .finished rs
    else runLoop scan denv fuel (iter + 1)
      (runBatch (chats.map fun c => (c, denv iter c)) rs)

/-- An environment in which every UI step succeeds: no step raises, the
menu Delete item is found, the first dialog selector matches, the first
confirmation try clicks, the first verification poll finds the link
gone, and every page refresh works. -/
def okEnv : DeleteEnv :=
  { overlayScript := none, chatLinkClick := none, containerHover := none,
    menuWait := none, menuClick := none, refreshInner := none,
    menuDeleteFound := true, menuDeleteClick := none, dialogSel := fun _ => true,
    confirmTry := fun _ _ => ConfirmRes.clicked, refreshConfirm := none,
    poll := fun _ => PollRes.absent, refreshOuter := none }

/-- The all-good environment with the three-dot options-menu click
raising the given exception. -/
def menuClickEnv (e : Exc) : DeleteEnv :=
  { okEnv with menuClick := some e }

/-- The dark-mode fault environment: the options-menu click raises an
intercepted click whose message carries the dark-mode marker. -/
def darkEnv : DeleteEnv :=
  menuClickEnv { intercepted := true, darkMarker := true }

/-- The all-good environment with the confirmation-button tries
replaced by the given outcomes. -/
def confirmEnv (t : Fin 5 → Fin 4 → ConfirmRes) : DeleteEnv :=
  { okEnv with confirmTry := t }

/-- The complete confirmation-click trace: all four selectors on each
of the five attempts, in source order. -/
def fullConfirmTrace : List (Fin 5 × Fin 4) :=
  [(0, 0), (0, 1), (0, 2), (0, 3),
   (1, 0), (1, 1), (1, 2), (1, 3),
   (2, 0), (2, 1), (2, 2), (2, 3),
   (3, 0), (3, 1), (3, 2), (3, 3),
   (4, 0), (4, 1), (4, 2), (4, 3)]

/-- The all-good environment with the verification polls replaced by
the given outcomes. -/
def pollEnv (p : Fin 3 → PollRes) : DeleteEnv :=
  { okEnv with poll := p }

/-- The all-good environment with the menu Delete click (line 238)
raising the given exception, which reaches the outer handler of the
deletion. -/
def menuDeleteClickEnv (e : Exc) : DeleteEnv :=
  { okEnv with menuDeleteClick := some e }

/-- The counterexample environment for C10: the only fault is a
non-intercepted exception at the menu Delete click whose message
carries the dark-mode marker. -/
def cexEnv : DeleteEnv :=
  menuDeleteClickEnv { intercepted := false, darkMarker := true }

/-- A state already tracking chat x with a zero fault counter. -/
def cexState : DeleterState :=
  { deleted_chat_ids := ∅, current_error_chat_id := some "x", dark_mode_error_count := 0 }

/-- The counterexample environment for C7: the menu Delete click raises
a marker-carrying exception, and the page refresh that the outer
handler then attempts (line 324) fails as well. -/
def c7cexEnv : DeleteEnv :=
  { okEnv with
    menuDeleteClick := some ⟨false, true⟩,
    refreshOuter := some ⟨false, false⟩ }

/-- A state already tracking chat x with the fault counter at 4, so the
next marker fault pushes it to 5 and triggers the handler refresh. -/
def c7cexState : DeleterState :=
  { deleted_chat_ids := ∅, current_error_chat_id := some "x", dark_mode_error_count := 4 }

lemma extractChats_mem (deleted : Finset String) :
    ∀ l : List PageElement, ∀ c : Chat, c ∈ extractChats deleted l → c.id ∉ deleted := by
  intro l
  induction l with
  | nil => intro c h; simp [extractChats] at h
  | cons e rest ih =>
    intro c h
    simp only [extractChats] at h
    split at h
    · exact ih c h
    · split at h
      · exact ih c h
      · split at h
        · split at h
          · rcases List.mem_cons.mp h with rfl | hm
            · assumption
            · exact ih c hm
          · exact ih c h
        · exact ih c h

/-- C1: every conversation returned by the sidebar scan has an
identifier outside the persisted deleted set. -/
theorem C1_pending_excludes_deleted (env : GetChatsEnv) (deleted : Finset String)
    (c : Chat) (h : c ∈ get_chats env deleted) : c.id ∉ deleted := by
  unfold get_chats at h
  split at h
  · simp at h
  · exact extractChats_mem deleted env.elements c h

theorem C1_witness : ("abc" : String) ∉ (∅ : Finset String) :=
  C1_pending_excludes_deleted ⟨false, [⟨some "https://chat.openai.com/c/abc", false⟩]⟩ ∅
    ⟨"abc"⟩ (by decide)

lemma delete_chat_dark_same (cid : String) (s : DeleterState)
    (h : s.current_error_chat_id = some cid) :
    delete_chat darkEnv ⟨cid⟩ s =
      if s.dark_mode_error_count + 1 ≥ 5 then
        ⟨PyOutcome.ret false, { s with dark_mode_error_count := 0 }, 1, []⟩
      else
        ⟨PyOutcome.ret false,
          { s with dark_mode_error_count := s.dark_mode_error_count + 1 }, 0, []⟩ := by
  by_cases hc : 4 ≤ s.dark_mode_error_count
  · simp [delete_chat, deleteBody, darkEnv, menuClickEnv, okEnv, h, hc]
  · simp [delete_chat, deleteBody, darkEnv, menuClickEnv, okEnv, h, hc]

lemma delete_chat_dark_fresh (cid : String) (s : DeleterState)
    (h : s.current_error_chat_id ≠ some cid) :
    delete_chat darkEnv ⟨cid⟩ s =
      ⟨PyOutcome.ret false,
        { s with current_error_chat_id := some cid, dark_mode_error_count := 1 }, 0, []⟩ := by
  simp [delete_chat, deleteBody, darkEnv, menuClickEnv, okEnv, h]

/-- C2: five consecutive dark-mode intercepted clicks on the options
menu of the same chat cause exactly one page reload (on the fifth
call), reset the fault counter to zero, and every call returns failure;
fewer than five consecutive faults cause no reload. -/
theorem C2_five_intercepted_clicks_one_reload (cid : String) (s0 : DeleterState)
    (h : s0.current_error_chat_id ≠ some cid) :
    (deleteRun darkEnv ⟨cid⟩ 5 s0).2 = 1 ∧
    (deleteRun darkEnv ⟨cid⟩ 5 s0).1.dark_mode_error_count = 0 ∧
    (∀ k, k ≤ 4 → (deleteRun darkEnv ⟨cid⟩ k s0).2 = 0) ∧
    (∀ k, k ≤ 4 →
      (delete_chat darkEnv ⟨cid⟩ (deleteRun darkEnv ⟨cid⟩ k s0).1).outcome =
        PyOutcome.ret false) := by
  have e1 : deleteRun darkEnv ⟨cid⟩ 1 s0 =
      ({ s0 with current_error_chat_id := some cid, dark_mode_error_count := 1 }, 0) := by
    simp [deleteRun, delete_chat_dark_fresh cid s0 h]
  have e2 : deleteRun darkEnv ⟨cid⟩ 2 s0 =
      ({ s0 with current_error_chat_id := some cid, dark_mode_error_count := 2 }, 0) := by
    rw [show (2 : Nat) = 1 + 1 from rfl, deleteRun, e1, delete_chat_dark_same cid _ rfl]
    simp
  have e3 : deleteRun darkEnv ⟨cid⟩ 3 s0 =
      ({ s0 with current_error_chat_id := some cid, dark_mode_error_count := 3 }, 0) := by
    rw [show (3 : Nat) = 2 + 1 from rfl, deleteRun, e2, delete_chat_dark_same cid _ rfl]
    simp
  have e4 : deleteRun darkEnv ⟨cid⟩ 4 s0 =
      ({ s0 with current_error_chat_id := some cid, dark_mode_error_count := 4 }, 0) := by
    rw [show (4 : Nat) = 3 + 1 from rfl, deleteRun, e3, delete_chat_dark_same cid _ rfl]
    simp
  have e5 : deleteRun darkEnv ⟨cid⟩ 5 s0 =
      ({ s0 with current_error_chat_id := some cid, dark_mode_error_count := 0 }, 1) := by
    rw [show (5 : Nat) = 4 + 1 from rfl, deleteRun, e4, delete_chat_dark_same cid _ rfl]
    simp
  refine ⟨by rw [e5], by rw [e5], ?_, ?_⟩
  · intro k hk
    interval_cases k
    · rfl
    · rw [e1]
    · rw [e2]
    · rw [e3]
    · rw [e4]
  · intro k hk
    interval_cases k
    · simp [deleteRun, delete_chat_dark_fresh cid s0 h]
    · rw [e1, delete_chat_dark_same cid _ rfl]; simp
    · rw [e2, delete_chat_dark_same cid _ rfl]; simp
    · rw [e3, delete_chat_dark_same cid _ rfl]; simp
    · rw [e4, delete_chat_dark_same cid _ rfl]; simp

theorem C2_witness :
    (deleteRun darkEnv ⟨"x"⟩ 5 initState).2 = 1 ∧
    (deleteRun darkEnv ⟨"x"⟩ 5 initState).1.dark_mode_error_count = 0 ∧
    (∀ k, k ≤ 4 → (deleteRun darkEnv ⟨"x"⟩ k initState).2 = 0) ∧
    (∀ k, k ≤ 4 →
      (delete_chat darkEnv ⟨"x"⟩ (deleteRun darkEnv ⟨"x"⟩ k initState).1).outcome =
        PyOutcome.ret false) :=
  C2_five_intercepted_clicks_one_reload "x" initState (by decide)

lemma confirmAttempts_all_notFound (t : Fin 5 → Fin 4 → ConfirmRes)
    (h : ∀ a s, t a s = ConfirmRes.notFound) :
    confirmAttempts t [0, 1, 2, 3, 4] = (false, fullConfirmTrace) := by
  simp [confirmAttempts, confirmSelectors, h, fullConfirmTrace]

/-- C3: when every confirmation-button selector fails to locate the
button, the deletion tries all four selectors on each of the five
attempts in order, and only then reloads the page once and returns
failure. -/
theorem C3_confirm_absent_exhausts_attempts (t : Fin 5 → Fin 4 → ConfirmRes)
    (h : ∀ a s, t a s = ConfirmRes.notFound) (cid : String) (s : DeleterState) :
    (delete_chat (confirmEnv t) ⟨cid⟩ s).outcome = PyOutcome.ret false ∧
    (delete_chat (confirmEnv t) ⟨cid⟩ s).reloads = 1 ∧
    (delete_chat (confirmEnv t) ⟨cid⟩ s).confirmTrace = fullConfirmTrace := by
  have hc := confirmAttempts_all_notFound t h
  refine ⟨?_, ?_, ?_⟩ <;>
    simp [delete_chat, deleteBody, confirmEnv, okEnv, dialogLoop, hc]

theorem C3_witness :
    (delete_chat (confirmEnv fun _ _ => ConfirmRes.notFound) ⟨"x"⟩ initState).outcome =
        PyOutcome.ret false ∧
    (delete_chat (confirmEnv fun _ _ => ConfirmRes.notFound) ⟨"x"⟩ initState).reloads = 1 ∧
    (delete_chat (confirmEnv fun _ _ => ConfirmRes.notFound) ⟨"x"⟩ initState).confirmTrace =
        fullConfirmTrace :=
  C3_confirm_absent_exhausts_attempts (fun _ _ => ConfirmRes.notFound)
    (fun _ _ => rfl) "x" initState

lemma pollLoop_ok_true (p : Fin 3 → PollRes) (h : pollLoop p [0, 1, 2] = Except.ok true) :
    p 0 = PollRes.absent ∨
    (p 0 = PollRes.present ∧ p 1 = PollRes.absent) ∨
    (p 0 = PollRes.present ∧ p 1 = PollRes.present ∧ p 2 = PollRes.absent) := by
  rcases h0 : p 0 with _ | _ | e0 <;> rcases h1 : p 1 with _ | _ | e1 <;>
    rcases h2 : p 2 with _ | _ | e2 <;>
    simp [pollLoop, h0, h1, h2] at h ⊢

lemma deleteBody_ok_true (env : DeleteEnv) (c : Chat) (s : DeleterState)
    (h : (deleteBody env c s).out = Except.ok true) :
    pollLoop env.poll [0, 1, 2] = Except.ok true := by
  simp only [deleteBody] at h
  repeat' split at h
  all_goals simp_all

/-- C4: for every fault environment, the deletion returns success only
if one of the three bounded verification polls finds the conversation
link absent; moreover, after a successful confirmation click, success
is equivalent to some poll finding the link absent with all earlier
polls finding it present, and if the link is still present at all three
polls the deletion returns failure. -/
theorem C4_success_iff_link_absent :
    (∀ (env : DeleteEnv) (c : Chat) (s : DeleterState),
      (delete_chat env c s).outcome = PyOutcome.ret true →
      env.poll 0 = PollRes.absent ∨
      (env.poll 0 = PollRes.present ∧ env.poll 1 = PollRes.absent) ∨
      (env.poll 0 = PollRes.present ∧ env.poll 1 = PollRes.present ∧
        env.poll 2 = PollRes.absent)) ∧
    (∀ (p : Fin 3 → PollRes) (cid : String) (s : DeleterState),
      ((delete_chat (pollEnv p) ⟨cid⟩ s).outcome = PyOutcome.ret true ↔
        p 0 = PollRes.absent ∨
        (p 0 = PollRes.present ∧ p 1 = PollRes.absent) ∨
        (p 0 = PollRes.present ∧ p 1 = PollRes.present ∧ p 2 = PollRes.absent)) ∧
      ((∀ k : Fin 3, p k = PollRes.present) →
        (delete_chat (pollEnv p) ⟨cid⟩ s).outcome = PyOutcome.ret false)) := by
  constructor
  · intro env c s h
    have hout : (deleteBody env c s).out = Except.ok true := by
      rcases hb : (deleteBody env c s).out with e | v
      · exfalso
        simp only [delete_chat, hb] at h
        repeat' split at h
        all_goals simp at h
      · simp only [delete_chat, hb] at h
        have hv : v = true := by simpa using h
        rw [hv]
    exact pollLoop_ok_true env.poll (deleteBody_ok_true env c s hout)
  · intro p cid s
    constructor
    · rcases h0 : p 0 with _ | _ | e0 <;> rcases h1 : p 1 with _ | _ | e1 <;>
        rcases h2 : p 2 with _ | _ | e2 <;>
        simp [delete_chat, deleteBody, pollEnv, okEnv, dialogLoop, confirmAttempts,
          confirmSelectors, pollLoop, h0, h1, h2] <;>
        (repeat' split) <;> simp
    · intro hall
      have h0 := hall 0
      have h1 := hall 1
      have h2 := hall 2
      simp [delete_chat, deleteBody, pollEnv, okEnv, dialogLoop, confirmAttempts,
        confirmSelectors, pollLoop, h0, h1, h2]

theorem C4_witness :
    (delete_chat (pollEnv fun _ => PollRes.absent) ⟨"x"⟩ initState).outcome =
      PyOutcome.ret true :=
  (C4_success_iff_link_absent.2 (fun _ => PollRes.absent) "x" initState).1.mpr (Or.inl rfl)

/-- C5: a missing or unparsable log file leaves the deleted set as the
empty set it was initialised to; the parse failure is absorbed inside
the function (the error of loadBody never escapes load_deleted_log), so
startup does not crash. -/
theorem C5_corrupt_log_starts_empty (fc : FileContent)
    (h : fc = FileContent.missing ∨ fc = FileContent.invalid) :
    load_deleted_log fc ∅ = ∅ := by
  rcases h with rfl | rfl <;> rfl

theorem C5_witness : load_deleted_log FileContent.invalid ∅ = ∅ :=
  C5_corrupt_log_starts_empty FileContent.invalid (Or.inr rfl)

lemma delete_chat_preserves_deleted (env : DeleteEnv) (c : Chat) (s : DeleterState) :
    (delete_chat env c s).state.deleted_chat_ids = s.deleted_chat_ids := by
  have hb : (deleteBody env c s).state.deleted_chat_ids = s.deleted_chat_ids := by
    simp only [deleteBody]
    repeat' split
    all_goals simp
  rcases h : (deleteBody env c s).out with e | v
  · simp only [delete_chat, h]
    repeat' split
    all_goals simpa using hb
  · simp only [delete_chat, h]
    exact hb

lemma runBatch_mono : ∀ (batch : List (Chat × DeleteEnv)) (rs : RunState),
    rs.ds.deleted_chat_ids ⊆ (runBatch batch rs).ds.deleted_chat_ids := by
  intro batch
  induction batch with
  | nil => intro rs; simp [runBatch]
  | cons p rest ih =>
    intro rs
    rcases p with ⟨c, env⟩
    simp only [runBatch]
    split
    · refine Finset.Subset.trans ?_ (ih _)
      rw [show rs.ds.deleted_chat_ids = (delete_chat env c rs.ds).state.deleted_chat_ids from
        (delete_chat_preserves_deleted env c rs.ds).symm]
      exact Finset.subset_insert _ _
    · refine Finset.Subset.trans ?_ (ih _)
      rw [delete_chat_preserves_deleted]

/-- C6: the deleted set only grows across any batch of deletion
attempts; a single deletion attempt never touches the set itself; on
success the main loop inserts exactly the chat identifier and writes
the enlarged set to the log file; on failure both the set and the file
are left as they were. -/
theorem C6_deleted_set_monotone :
    (∀ (env : DeleteEnv) (c : Chat) (s : DeleterState),
      (delete_chat env c s).state.deleted_chat_ids = s.deleted_chat_ids) ∧
    (∀ (batch : List (Chat × DeleteEnv)) (rs : RunState),
      rs.ds.deleted_chat_ids ⊆ (runBatch batch rs).ds.deleted_chat_ids) ∧
    (∀ (c : Chat) (env : DeleteEnv) (rs : RunState),
      (delete_chat env c rs.ds).outcome = PyOutcome.ret true →
      runBatch [(c, env)] rs =
        ⟨{ (delete_chat env c rs.ds).state with
            deleted_chat_ids := insert c.id rs.ds.deleted_chat_ids },
          FileContent.valid (save_deleted_log (insert c.id rs.ds.deleted_chat_ids))⟩) ∧
    (∀ (c : Chat) (env : DeleteEnv) (rs : RunState),
      (delete_chat env c rs.ds).outcome ≠ PyOutcome.ret true →
      runBatch [(c, env)] rs = ⟨(delete_chat env c rs.ds).state, rs.file⟩ ∧
      (delete_chat env c rs.ds).state.deleted_chat_ids = rs.ds.deleted_chat_ids) := by
  refine ⟨delete_chat_preserves_deleted, runBatch_mono, ?_, ?_⟩
  · intro c env rs h
    simp [runBatch, h, delete_chat_preserves_deleted]
  · intro c env rs h
    exact ⟨by simp [runBatch, h], delete_chat_preserves_deleted env c rs.ds⟩

theorem C6_witness :
    runBatch [(⟨"x"⟩, okEnv)] ⟨initState, FileContent.missing⟩ =
      ⟨{ (delete_chat okEnv ⟨"x"⟩ initState).state with
          deleted_chat_ids := insert "x" initState.deleted_chat_ids },
        FileContent.valid (save_deleted_log (insert "x" initState.deleted_chat_ids))⟩ :=
  C6_deleted_set_monotone.2.2.1 ⟨"x"⟩ okEnv ⟨initState, FileContent.missing⟩ rfl

/-- C7 counterexample: when a marker-carrying fault reaches the outer
handler with the counter at 4 and the page refresh the handler then
performs (line 324) fails, that refresh exception propagates out of the
deletion instead of being converted to a boolean: the outcome is a
raise, the counter is left incremented and not reset, and no reload
happened. -/
theorem C7_counterexample_refresh_fault_escapes :
    (delete_chat c7cexEnv ⟨"x"⟩ c7cexState).outcome =
      PyOutcome.raise { intercepted := false, darkMarker := false } ∧
    (delete_chat c7cexEnv ⟨"x"⟩ c7cexState).state.dark_mode_error_count = 5 ∧
    (delete_chat c7cexEnv ⟨"x"⟩ c7cexState).reloads = 0 :=
  ⟨rfl, rfl, rfl⟩

/-- C7 as amended: the deletion converts every fault of its try body to
a returned boolean, with one exception: a failure of the page refresh
performed inside the outer except handler itself propagates out (to be
caught only by the handler of run, which ends the scan loop).  So
whenever that handler refresh does not fault, the caller receives a
boolean, and any exception that does escape is exactly the
outer-handler refresh fault. -/
theorem C7_no_exception_escapes :
    (∀ (env : DeleteEnv) (chat : Chat) (s : DeleterState),
      env.refreshOuter = none →
      ∃ b : Bool, (delete_chat env chat s).outcome = PyOutcome.ret b) ∧
    (∀ (env : DeleteEnv) (chat : Chat) (s : DeleterState) (e : Exc),
      (delete_chat env chat s).outcome = PyOutcome.raise e →
      env.refreshOuter = some e) := by
  constructor
  · intro env chat s h
    rcases hb : (deleteBody env chat s).out with e | v
    · refine ⟨false, ?_⟩
      simp only [delete_chat, hb, h]
      repeat' split
      all_goals rfl
    · exact ⟨v, by simp [delete_chat, hb]⟩
  · intro env chat s e hout
    rcases hb : (deleteBody env chat s).out with e' | v
    · simp only [delete_chat, hb] at hout
      rcases hr : env.refreshOuter with _ | f
      · simp only [hr] at hout
        repeat' split at hout
        all_goals simp at hout
      · simp only [hr] at hout
        repeat' split at hout
        all_goals simp_all
    · simp only [delete_chat, hb] at hout
      simp at hout

theorem C7_witness :
    ∃ b : Bool, (delete_chat okEnv ⟨"x"⟩ initState).outcome = PyOutcome.ret b :=
  C7_no_exception_escapes.1 okEnv ⟨"x"⟩ initState rfl

/-- C8: a scan whose wait times out returns no conversations, and the
main loop halts as soon as a scan returns no conversations. -/
theorem C8_empty_scan_terminates :
    (∀ (env : GetChatsEnv) (deleted : Finset String),
      env.timeout = true → get_chats env deleted = []) ∧
    (∀ (scan : Nat → GetChatsEnv) (denv : Nat → Chat → DeleteEnv)
      (fuel iter : Nat) (rs : RunState),
      get_chats (scan iter) rs.ds.deleted_chat_ids = [] →
      runLoop scan denv (fuel + 1) iter rs = LoopResult.finished rs) := by
  constructor
  · intro env deleted h
    simp [get_chats, h]
  · intro scan denv fuel iter rs h
    simp [runLoop, h]

theorem C8_witness :
    get_chats ⟨true, []⟩ ∅ = [] ∧
    runLoop (fun _ => ⟨true, []⟩) (fun _ _ => okEnv) 1 0 ⟨initState, FileContent.missing⟩ =
      LoopResult.finished ⟨initState, FileContent.missing⟩ :=
  ⟨C8_empty_scan_terminates.1 ⟨true, []⟩ ∅ rfl,
   C8_empty_scan_terminates.2 (fun _ => ⟨true, []⟩) (fun _ _ => okEnv) 0 0
     ⟨initState, FileContent.missing⟩ (C8_empty_scan_terminates.1 ⟨true, []⟩ ∅ rfl)⟩

/-- C9: persisting the deleted set and loading it back yields the same
set, whatever set was in memory before the load; and loading any JSON
array yields exactly the set of its elements, duplicates collapsing. -/
theorem C9_save_load_round_trip :
    (∀ (s : Finset String) (cur : Finset String),
      load_deleted_log (FileContent.valid (save_deleted_log s)) cur = s) ∧
    (∀ (l : List String) (cur : Finset String),
      load_deleted_log (FileContent.valid l) cur = l.toFinset) := by
  constructor
  · intro s cur
    simp [load_deleted_log, loadBody, save_deleted_log, Finset.sort_toFinset]
  · intro l cur
    simp [load_deleted_log, loadBody]

/-- C10 counterexample: a fault that is not an intercepted click but
whose message contains the dark-mode marker still increments the
per-identifier fault counter (from 0 to 1 here), because the outer
handler tests only the message.  So intercepted clicks are not the only
faults that increment the counter, contrary to the claim. -/
theorem C10_counterexample_nonintercepted_increments :
    cexEnv.menuDeleteClick = some { intercepted := false, darkMarker := true } ∧
    cexState.dark_mode_error_count = 0 ∧
    (delete_chat cexEnv ⟨"x"⟩ cexState).state.dark_mode_error_count = 1 ∧
    (delete_chat cexEnv ⟨"x"⟩ cexState).outcome = PyOutcome.ret false :=
  ⟨rfl, rfl, rfl, rfl⟩

/-- C10 as amended: at the options-menu click, an intercepted click
with the marker increments the counter (reloading and resetting at 5),
and an intercepted click without the marker returns failure immediately
with no increment and no reload; a fault reaching the outer handler
increments the counter exactly when its message carries the marker,
whether or not it is an intercepted click, and without the marker it
returns failure with no increment and no reload. -/
theorem C10_amended_marker_increments (cid : String) (s : DeleterState) (e : Exc)
    (hcur : s.current_error_chat_id = some cid) :
    (e.intercepted = true → e.darkMarker = false →
      delete_chat (menuClickEnv e) ⟨cid⟩ s = ⟨PyOutcome.ret false, s, 0, []⟩) ∧
    (e.intercepted = true → e.darkMarker = true →
      delete_chat (menuClickEnv e) ⟨cid⟩ s =
        if s.dark_mode_error_count + 1 ≥ 5 then
          ⟨PyOutcome.ret false, { s with dark_mode_error_count := 0 }, 1, []⟩
        else
          ⟨PyOutcome.ret false,
            { s with dark_mode_error_count := s.dark_mode_error_count + 1 }, 0, []⟩) ∧
    (e.darkMarker = true →
      delete_chat (menuDeleteClickEnv e) ⟨cid⟩ s =
        if s.dark_mode_error_count + 1 ≥ 5 then
          ⟨PyOutcome.ret false, { s with dark_mode_error_count := 0 }, 1, []⟩
        else
          ⟨PyOutcome.ret false,
            { s with dark_mode_error_count := s.dark_mode_error_count + 1 }, 0, []⟩) ∧
    (e.darkMarker = false →
      delete_chat (menuDeleteClickEnv e) ⟨cid⟩ s = ⟨PyOutcome.ret false, s, 0, []⟩) := by
  refine ⟨?_, ?_, ?_, ?_⟩
  · intro hi hd
    simp [delete_chat, deleteBody, menuClickEnv, okEnv, hcur, hi, hd]
  · intro hi hd
    by_cases hc : 4 ≤ s.dark_mode_error_count
    · simp [delete_chat, deleteBody, menuClickEnv, okEnv, hcur, hi, hd, hc]
    · simp [delete_chat, deleteBody, menuClickEnv, okEnv, hcur, hi, hd, hc]
  · intro hd
    by_cases hc : 4 ≤ s.dark_mode_error_count
    · simp [delete_chat, deleteBody, menuDeleteClickEnv, okEnv, hcur, hd, hc]
    · simp [delete_chat, deleteBody, menuDeleteClickEnv, okEnv, hcur, hd, hc]
  · intro hd
    simp [delete_chat, deleteBody, menuDeleteClickEnv, okEnv, hcur, hd]

theorem C10_witness :
    delete_chat (menuClickEnv { intercepted := true, darkMarker := false }) ⟨"x"⟩ cexState =
      ⟨PyOutcome.ret false, cexState, 0, []⟩ :=
  (C10_amended_marker_increments "x" cexState
    { intercepted := true, darkMarker := false } rfl).1 rfl rfl
